import Mathlib

/-!
Shallow embedding of the Urban Woodspace AI backend core
(src/app/api/ai-design-visual/route.ts): the design-variation builder,
image-prompt composer, cost estimator, analysis extractor and the
generation orchestrator loop, with theorems checking the claims of the specification about them.
-/

namespace UrbanWoodspace

/-- JS `s.includes(sub)`: `sub` occurs as a contiguous substring of `s`. -/
def jsIncludes (s sub : String) : Bool :=
  decide (sub.toList <:+: s.toList)

/-- JS `s.toLowerCase()`: per-character lowercasing (ASCII, which covers every
keyword the extraction functions test for). -/
def jsToLower (s : String) : String :=
  String.mk (s.data.map Char.toLower)

/-- Splitter of `splitLines`: cut the character list at each newline. -/
def splitLinesAux : List Char → List Char → List (List Char)
  | [], acc => [acc.reverse]
  | c :: rest, acc =>
    if c = '\n' then acc.reverse :: splitLinesAux rest []
    else splitLinesAux rest (c :: acc)

/-- JS `s.split("\n")`. -/
def jsSplitLines (s : String) : List String :=
  (splitLinesAux s.data []).map String.mk

/-- JS `str.charAt(0).toUpperCase() + str.slice(1)`. -/
def capitalizeFirst (str : String) : String :=
  match str.toList with
  | [] => ""
  | c :: cs => String.mk (c.toUpper :: cs)

/-- The `preferences` object parsed from the request in the generate branch. -/
structure Preferences where
  kitchenStyle : String
  colorPreference : String
  budgetRange : String
  storageNeeds : String
  cookingHabits : String
  familySize : String
deriving Repr, DecidableEq

/-- One element of the array built by `createDesignVariations`. -/
structure DesignVariation where
  name : String
  description : String
  cabinetStyle : String
  colorPalette : String
  keyFeatures : List String
  timeline : String
  complexity : String
  whyThisWorks : String
  layoutOptimization : List String
  storageFeatures : List String
deriving Repr, DecidableEq

/-- Embeds `getCabinetStyle` from route.ts: nested table keyed by style then tier,
`styles[style]?.[tier] || "Custom cabinet style"`. -/
def getCabinetStyle (style tier : String) : String :=
  if style = "contemporary" then
    if tier = "primary" then "Flat-panel doors with sleek brushed hardware"
    else if tier = "enhanced" then "Handleless flat-panel with integrated pulls and soft-close"
    else if tier = "value" then "Clean flat-panel with modern hardware"
    else "Custom cabinet style"
  else if style = "traditional" then
    if tier = "primary" then "Raised-panel doors with classic brass hardware"
    else if tier = "enhanced" then "Detailed raised-panel with crown molding and premium finishes"
    else if tier = "value" then "Simple raised-panel with traditional pulls"
    else "Custom cabinet style"
  else if style = "transitional" then
    if tier = "primary" then "Shaker-style doors with brushed nickel hardware"
    else if tier = "enhanced" then "Premium Shaker with soft-close mechanisms and custom details"
    else if tier = "value" then "Classic Shaker with standard hardware"
    else "Custom cabinet style"
  else if style = "modern" then
    if tier = "primary" then "Ultra-flat doors with minimal linear hardware"
    else if tier = "enhanced" then "Integrated handle-less design with push-to-open"
    else if tier = "value" then "Simple flat doors with sleek pulls"
    else "Custom cabinet style"
  else if style = "farmhouse" then
    if tier = "primary" then "Beadboard doors with rustic bronze hardware"
    else if tier = "enhanced" then "Detailed farmhouse with decorative elements and vintage accents"
    else if tier = "value" then "Simple farmhouse style with classic pulls"
    else "Custom cabinet style"
  else if style = "scandinavian" then
    if tier = "primary" then "Light wood doors with minimal black hardware"
    else if tier = "enhanced" then "Premium wood grain with integrated handles and natural finishes"
    else if tier = "value" then "Natural wood with simple hardware"
    else "Custom cabinet style"
  else if style = "industrial" then
    if tier = "primary" then "Metal-accented doors with industrial black hardware"
    else if tier = "enhanced" then "Mixed materials with exposed elements and custom metalwork"
    else if tier = "value" then "Industrial-inspired with metal accents"
    else "Custom cabinet style"
  else "Custom cabinet style"

/-- Embeds `getColorPalette` from route.ts:
`palettes[colorPref]?.[tier] || "Custom color palette designed for your space"`. -/
def getColorPalette (colorPref tier : String) : String :=
  if colorPref = "light-neutral" then
    if tier = "primary" then "Crisp whites with warm gray accents and quartz counters"
    else if tier = "enhanced" then "Premium whites with marble-inspired veining and gold accents"
    else if tier = "value" then "Clean whites with subtle gray undertones"
    else "Custom color palette designed for your space"
  else if colorPref = "dark-dramatic" then
    if tier = "primary" then "Deep charcoal with contrasting light quartz counters"
    else if tier = "enhanced" then "Rich navy with brass accent hardware and marble backsplash"
    else if tier = "value" then "Dark gray with white contrast elements"
    else "Custom color palette designed for your space"
  else if colorPref = "warm-wood" then
    if tier = "primary" then "Natural oak with complementary earth tones and granite"
    else if tier = "enhanced" then "Premium walnut with brass accents and natural stone"
    else if tier = "value" then "Warm maple with classic finishes"
    else "Custom color palette designed for your space"
  else if colorPref = "two-tone" then
    if tier = "primary" then "White uppers with gray lowers and coordinated hardware"
    else if tier = "enhanced" then "Contrasting island with premium coordinated colors and finishes"
    else if tier = "value" then "Simple two-tone with balanced contrast"
    else "Custom color palette designed for your space"
  else if colorPref = "bold-colors" then
    if tier = "primary" then "Custom color with neutral balance and modern accents"
    else if tier = "enhanced" then "Rich color with premium accent materials and designer touches"
    else if tier = "value" then "Tasteful color with classic combinations"
    else "Custom color palette designed for your space"
  else "Custom color palette designed for your space"

/-- Embeds `getKeyFeatures` from route.ts: `baseFeatures[tier] || baseFeatures.primary`;
the style, storage and cooking parameters are accepted but never read. -/
def getKeyFeatures (style storage cooking tier : String) : List String :=
  if tier = "primary" then
    ["Soft-close doors and drawers",
     "Under-cabinet LED lighting",
     "Quartz countertops",
     "Custom storage solutions",
     "Premium hardware finishes",
     "Professional installation"]
  else if tier = "enhanced" then
    ["Premium soft-close mechanisms",
     "Integrated LED lighting system",
     "Luxury quartz with waterfall edge",
     "Advanced storage organization",
     "Designer hardware collection",
     "Built-in charging stations",
     "Custom crown molding"]
  else if tier = "value" then
    ["Quality soft-close hinges",
     "LED under-cabinet strips",
     "Durable quartz surfaces",
     "Efficient storage design",
     "Stylish hardware selection",
     "Professional installation"]
  else
    ["Soft-close doors and drawers",
     "Under-cabinet LED lighting",
     "Quartz countertops",
     "Custom storage solutions",
     "Premium hardware finishes",
     "Professional installation"]

/-- Embeds `getLayoutOptimization` from route.ts: conditionally accumulated phrases
with a fixed 3-item default when nothing fires. -/
def getLayoutOptimization (cooking storage tier : String) : List String :=
  let optimizations :=
    (if jsIncludes cooking "daily" || jsIncludes cooking "frequent" then
      ["Optimized work triangle for efficient cooking",
       "Multiple prep areas for complex meals"] else [])
    ++ (if jsIncludes cooking "entertainer" then
      ["Open layout for social cooking and entertaining",
       "Extended counter space for serving guests"] else [])
    ++ (if jsIncludes storage "maximum" then
      ["Floor-to-ceiling storage maximization",
       "Corner cabinet optimization with lazy susans"] else [])
    ++ (if tier = "enhanced" then
      ["Smart appliance integration zones",
       "Hidden storage solutions and secret compartments"] else [])
  if optimizations.length > 0 then optimizations
  else ["Improved workflow efficiency", "Optimized storage placement", "Enhanced counter workspace"]

/-- Embeds `getStorageFeatures` from route.ts: table keyed by storageNeeds with a
4-item generic fallback; tier "enhanced" appends 2 extra items. -/
def getStorageFeatures (storage tier : String) : List String :=
  let baseFeatures :=
    if storage = "maximum-storage" then
      ["Floor-to-ceiling cabinets with crown molding",
       "Deep drawer systems with full extension slides",
       "Corner cabinet solutions with lazy susans",
       "Pantry organization systems with pull-out shelves"]
    else if storage = "organized-storage" then
      ["Pull-out drawer organizers with dividers",
       "Spice rack systems and condiment storage",
       "Divided storage compartments for utensils",
       "Lazy Susan corner units for easy access"]
    else if storage = "display-storage" then
      ["Glass-front upper cabinets with interior lighting",
       "Open shelving displays for decorative items",
       "Wine storage features and glass racks",
       "Decorative storage elements and display niches"]
    else if storage = "hidden-storage" then
      ["Integrated appliance panels for seamless look",
       "Hidden storage compartments and secret drawers",
       "Seamless cabinet integration with walls",
       "Concealed organization systems behind doors"]
    else if storage = "pantry-storage" then
      ["Walk-in pantry design with custom shelving",
       "Pull-out pantry systems with wire baskets",
       "Food storage organization with clear containers",
       "Bulk storage solutions for Calgary families"]
    else
      ["Custom storage solutions tailored to your needs",
       "Organized cabinet interiors with adjustable shelves",
       "Efficient space utilization for Calgary homes",
       "Quality storage hardware with lifetime warranty"]
  if tier = "enhanced" then
    baseFeatures ++ ["Smart storage technology integration",
                     "Premium organization systems with soft-close"]
  else baseFeatures

/-- Budget bracket lookup inside `calculateCost`:
`budgetMultipliers[budgetRange] || { min: 35000, max: 50000 }`. -/
def budgetBracket (budgetRange : String) : Nat × Nat :=
  if budgetRange = "25k-40k" then (25000, 40000)
  else if budgetRange = "40k-60k" then (40000, 60000)
  else if budgetRange = "60k-80k" then (60000, 80000)
  else if budgetRange = "80k-100k" then (80000, 100000)
  else if budgetRange = "100k-plus" then (100000, 150000)
  else (35000, 50000)

/-- Complexity multiplier inside `calculateCost`, scaled by 100 to stay exact:
standard = 0.85, high = 1.0, premium = 1.25, unknown = 1.0. -/
def complexityMultPct (complexity : String) : Nat :=
  if complexity = "standard" then 85
  else if complexity = "high" then 100
  else if complexity = "premium" then 125
  else 100

/-- Embeds `Math.round(base * multiplier)` with the multiplier given as a percentage:
round-half-up of `base * pct / 100`. -/
def roundMult (base pct : Nat) : Nat :=
  (base * pct + 50) / 100

/-- Insert a comma after every 3 digits of a reversed digit list
(the grouping of `Number.prototype.toLocaleString`). -/
def insertCommasRev : List Char → List Char
  | c1 :: c2 :: c3 :: c4 :: rest => c1 :: c2 :: c3 :: ',' :: insertCommasRev (c4 :: rest)
  | l => l

/-- Embeds `n.toLocaleString()`: decimal digits with thousands separators. -/
def withCommas (n : Nat) : String :=
  String.mk (insertCommasRev (toString n).toList.reverse).reverse

/-- Embeds `calculateCost` from route.ts: bracket times complexity multiplier,
rounded, formatted as a CAD range. -/
def calculateCost (budgetRange complexity : String) : String :=
  let budget := budgetBracket budgetRange
  let pct := complexityMultPct complexity
  let minCost := roundMult budget.1 pct
  let maxCost := roundMult budget.2 pct
  "$" ++ withCommas minCost ++ " - $" ++ withCommas maxCost ++ " CAD"

/-- Embeds `createDesignVariations` from route.ts: the three tiered variations
(primary, enhanced, value), pushed in that order. -/
def createDesignVariations (preferences : Preferences) : List DesignVariation :=
  let baseStyle := preferences.kitchenStyle
  let colorPref := preferences.colorPreference
  let storage := preferences.storageNeeds
  let cooking := preferences.cookingHabits
  [{ name := "Custom " ++ capitalizeFirst baseStyle ++ " Design",
     description := "A personalized " ++ baseStyle ++ " kitchen designed specifically for your Calgary home, cooking style, and storage needs.",
     cabinetStyle := getCabinetStyle baseStyle "primary",
     colorPalette := getColorPalette colorPref "primary",
     keyFeatures := getKeyFeatures baseStyle storage cooking "primary",
     timeline := "10-12 weeks",
     complexity := "high",
     whyThisWorks := "This design perfectly matches your " ++ baseStyle ++ " style preference while optimizing for your " ++ cooking ++ " cooking habits and " ++ storage ++ " storage needs. Perfect for Calgary\x27s lifestyle.",
     layoutOptimization := getLayoutOptimization cooking storage "primary",
     storageFeatures := getStorageFeatures storage "primary" },
   { name := "Premium " ++ capitalizeFirst baseStyle ++ " Collection",
     description := "An elevated version of your preferred style with luxury features and enhanced functionality for the discerning Calgary homeowner.",
     cabinetStyle := getCabinetStyle baseStyle "enhanced",
     colorPalette := getColorPalette colorPref "enhanced",
     keyFeatures := getKeyFeatures baseStyle storage cooking "enhanced",
     timeline := "12-14 weeks",
     complexity := "premium",
     whyThisWorks := "This premium design builds on your style preferences with luxury materials and advanced storage solutions for the ultimate Calgary kitchen experience.",
     layoutOptimization := getLayoutOptimization cooking storage "enhanced",
     storageFeatures := getStorageFeatures storage "enhanced" },
   { name := "Smart " ++ capitalizeFirst baseStyle ++ " Value",
     description := "A cost-effective approach to your preferred style without compromising on Urban Woodspace quality or functionality.",
     cabinetStyle := getCabinetStyle baseStyle "value",
     colorPalette := getColorPalette colorPref "value",
     keyFeatures := getKeyFeatures baseStyle storage cooking "value",
     timeline := "8-10 weeks",
     complexity := "standard",
     whyThisWorks := "This design delivers your desired " ++ baseStyle ++ " aesthetic with smart material choices and efficient layouts that maximize value for Calgary families.",
     layoutOptimization := getLayoutOptimization cooking storage "value",
     storageFeatures := getStorageFeatures storage "value" }]

/-- Embeds `createImagePrompt` from route.ts: the DALL-E prompt built by successive
`prompt +=` steps. The original image URL parameter is accepted but does not
appear in the prompt text. -/
def createImagePrompt (design : DesignVariation) (preferences : Preferences) (originalImageUrl : String) : String :=
  let style := preferences.kitchenStyle
  let cooking := preferences.cookingHabits
  let family := preferences.familySize
  let p1 := "A stunning, photorealistic 3D rendering of a " ++ style ++ " kitchen design for Urban Woodspace Calgary. "
  let p2 := p1 ++
    (if style = "contemporary" then
      "Clean lines, flat-panel cabinets, minimalist design with sleek hardware and modern appliances. "
    else if style = "traditional" then
      "Classic raised-panel cabinets, elegant details, timeless design with traditional hardware and warm finishes. "
    else if style = "transitional" then
      "Shaker-style cabinets blending traditional and modern elements with versatile hardware. "
    else if style = "modern" then
      "Ultra-modern design with handleless cabinets, cutting-edge features, and minimalist aesthetics. "
    else if style = "farmhouse" then
      "Rustic farmhouse charm with beadboard details, vintage-inspired elements, and cozy warmth. "
    else if style = "scandinavian" then
      "Light wood tones, natural materials, bright and airy Scandinavian design with clean lines. "
    else if style = "industrial" then
      "Industrial aesthetic with metal accents, urban design elements, and modern functionality. "
    else "")
  let p3 := p2 ++ ("Color scheme: " ++ design.colorPalette ++ ". ")
  let p4 := p3 ++
    (if jsIncludes cooking "daily" || jsIncludes cooking "frequent" then
      "Efficient work triangle layout with multiple prep areas and professional-grade workflow. "
    else "")
  let p5 := p4 ++
    (if jsIncludes cooking "entertainer" then
      "Open layout perfect for entertaining with large island and social cooking areas. "
    else "")
  let p6 := p5 ++
    (if jsIncludes family "large" then
      "Spacious design accommodating large family needs with ample storage and workspace. "
    else "")
  let p7 := p6 ++ (design.cabinetStyle ++ ". Premium quartz countertops, under-cabinet LED lighting, high-end stainless steel appliances. ")
  let p8 := p7 ++ ("Storage features: " ++ String.intercalate ", " (design.storageFeatures.take 3) ++ ". ")
  let p9 := p8 ++ "Designed for Calgary homes with practical storage for winter gear and seasonal items. "
  p9 ++ "Professional architectural photography style, perfect natural lighting, 4K quality, hyperrealistic rendering. The kitchen should look like a high-end interior design magazine photo with perfect staging, warm lighting, and inviting atmosphere. Show the space as lived-in and welcoming for a Calgary family."

/-- One element of the `designs` array pushed by the generate loop.
`generatedImage` and `imagePrompt` are `Option` because the failure push
omits them. -/
structure GeneratedDesign where
  styleName : String
  description : String
  cabinetStyle : String
  colorPalette : String
  keyFeatures : List String
  estimatedCost : String
  timeline : String
  whyThisWorks : String
  layoutOptimization : List String
  storageFeatures : List String
  generatedImage : Option String
  imagePrompt : Option String
  imageStatus : String
deriving Repr, DecidableEq

/-- The record pushed on the success path of the generate loop
(route.ts lines 196-210). -/
def successDesign (preferences : Preferences) (v : DesignVariation) (url prompt : String) : GeneratedDesign :=
  { styleName := v.name,
    description := v.description,
    cabinetStyle := v.cabinetStyle,
    colorPalette := v.colorPalette,
    keyFeatures := v.keyFeatures,
    estimatedCost := calculateCost preferences.budgetRange v.complexity,
    timeline := v.timeline,
    whyThisWorks := v.whyThisWorks,
    layoutOptimization := v.layoutOptimization,
    storageFeatures := v.storageFeatures,
    generatedImage := some url,
    imagePrompt := some prompt,
    imageStatus := "success" }

/-- The record pushed on the catch path of the generate loop
(route.ts lines 218-230): same non-image fields, no image fields. -/
def failedDesign (preferences : Preferences) (v : DesignVariation) : GeneratedDesign :=
  { styleName := v.name,
    description := v.description,
    cabinetStyle := v.cabinetStyle,
    colorPalette := v.colorPalette,
    keyFeatures := v.keyFeatures,
    estimatedCost := calculateCost preferences.budgetRange v.complexity,
    timeline := v.timeline,
    whyThisWorks := v.whyThisWorks,
    layoutOptimization := v.layoutOptimization,
    storageFeatures := v.storageFeatures,
    generatedImage := none,
    imagePrompt := none,
    imageStatus := "failed" }

/-- Aggregated outcome of the generate branch: the `designs` array and the
`stats` counters. -/
structure GenResult where
  designs : List GeneratedDesign
  imagesGenerated : Nat
  imagesFailed : Nat
deriving Repr, DecidableEq

/-- Outcome of one call to the image-synthesis capability: `none` models a
raised error, `some url` a returned URL (the empty string models a missing
or empty `data[0]?.url`, which the code treats as a failure by throwing). -/
def synthSucceeds (r : Option String) : Bool :=
  match r with
  | some url => !(url == "")
  | none => false

/-- The `for (const [index, designVariation] of designVariations.entries())`
loop of the generate branch: per-variation try/catch, appending a success or
failure record and bumping one counter, never propagating the failure. -/
def runLoop (preferences : Preferences) (imageUrl : String) (synth : Nat → Option String) : Nat → List DesignVariation → GenResult
  | _, [] => ⟨[], 0, 0⟩
  | i, v :: rest =>
    let prompt := createImagePrompt v preferences imageUrl
    let tail := runLoop preferences imageUrl synth (i + 1) rest
    match synth i with
    | some url =>
      if url = "" then
        ⟨failedDesign preferences v :: tail.designs, tail.imagesGenerated, tail.imagesFailed + 1⟩
      else
        ⟨successDesign preferences v url prompt :: tail.designs, tail.imagesGenerated + 1, tail.imagesFailed⟩
    | none =>
      ⟨failedDesign preferences v :: tail.designs, tail.imagesGenerated, tail.imagesFailed + 1⟩

/-- The generate branch of `POST`: build the design variations, then run the
per-variation generation loop from index 0. -/
def runGenerate (preferences : Preferences) (imageUrl : String) (synth : Nat → Option String) : GenResult :=
  runLoop preferences imageUrl synth 0 (createDesignVariations preferences)

/-- Embeds `extractFromAnalysis` from route.ts: case-insensitive line search keyed by
an extraction type, returning the trimmed matching line or null. -/
def extractFromAnalysis (text typ : String) : Option String :=
  let lines := jsSplitLines (jsToLower text)
  if typ = "dimensions" then
    (lines.find? (fun line =>
      jsIncludes line "dimension" || jsIncludes line "size" || jsIncludes line "feet" ||
      jsIncludes line "\x27" || jsIncludes line "x")).map String.trim
  else if typ = "layout" then
    (lines.find? (fun line =>
      jsIncludes line "layout" || jsIncludes line "galley" || jsIncludes line "l-shaped" ||
      jsIncludes line "u-shaped" || jsIncludes line "island")).map String.trim
  else if typ = "lighting" then
    (lines.find? (fun line =>
      jsIncludes line "light" || jsIncludes line "window" || jsIncludes line "bright")).map String.trim
  else none

/-- Embeds `extractFeatures` from route.ts. -/
def extractFeatures (text : String) : List String :=
  let t := jsToLower text
  let features :=
    (if jsIncludes t "window" then ["Natural lighting from windows"] else [])
    ++ (if jsIncludes t "ceiling" then ["Standard ceiling height"] else [])
    ++ (if jsIncludes t "floor" then ["Existing flooring"] else [])
    ++ (if jsIncludes t "door" then ["Door access points"] else [])
  if features.length > 0 then features
  else ["Natural lighting", "Standard ceiling height", "Existing flooring"]

/-- Embeds `extractChallenges` from route.ts. -/
def extractChallenges (text : String) : List String :=
  let t := jsToLower text
  let challenges :=
    (if jsIncludes t "small" || jsIncludes t "limited" then ["Limited space optimization"] else [])
    ++ (if jsIncludes t "old" || jsIncludes t "dated" then ["Outdated design elements"] else [])
    ++ (if jsIncludes t "storage" then ["Insufficient storage"] else [])
    ++ (if jsIncludes t "light" then ["Lighting improvements needed"] else [])
  if challenges.length > 0 then challenges
  else ["Space optimization needed", "Storage improvements", "Lighting updates"]

/-- Embeds `extractOpportunities` from route.ts: a fixed list, the text is unread. -/
def extractOpportunities (text : String) : List String :=
  ["Maximize vertical storage with tall cabinets",
   "Improve workflow with optimized layout",
   "Add modern lighting solutions",
   "Create more counter workspace",
   "Enhance storage organization"]

/-- Embeds `extractArchitectural` from route.ts: a fixed list, the text is unread. -/
def extractArchitectural (text : String) : List String :=
  ["Standard wall construction", "Existing flooring", "Window placement", "Door locations"]

/-- Embeds `extractRecommendedStyles` from route.ts. -/
def extractRecommendedStyles (text : String) : List String :=
  let textLower := jsToLower text
  let styles :=
    (if jsIncludes textLower "modern" || jsIncludes textLower "contemporary" then ["Contemporary"] else [])
    ++ (if jsIncludes textLower "traditional" || jsIncludes textLower "classic" then ["Traditional"] else [])
    ++ (if jsIncludes textLower "transitional" then ["Transitional"] else [])
    ++ (if jsIncludes textLower "farmhouse" || jsIncludes textLower "rustic" then ["Farmhouse"] else [])
  if styles.length > 0 then styles else ["Contemporary", "Traditional", "Transitional"]

/-- Embeds `extractOptimization` from route.ts: a fixed list, the text is unread. -/
def extractOptimization (text : String) : List String :=
  ["Optimize work triangle efficiency",
   "Maximize storage capacity",
   "Improve traffic flow",
   "Enhance natural lighting"]

/-- The structured summary assembled in the analyze branch of `POST`. -/
structure SpaceAnalysis where
  roomDimensions : String
  layoutType : String
  existingFeatures : List String
  challenges : List String
  opportunities : List String
  lightingSituation : String
  architecturalElements : List String
  recommendedStyles : List String
  spaceOptimization : List String
deriving Repr, DecidableEq

/-- JS `expr || dflt` on a nullable string: null and the empty string are
falsy, so both fall through to the default. -/
def jsOrDefault (o : Option String) (d : String) : String :=
  match o with
  | none => d
  | some s => if s = "" then d else s

/-- The `spaceAnalysis` object literal assembled in the analyze branch
(route.ts lines 142-152). -/
def buildSpaceAnalysis (analysisText : String) : SpaceAnalysis :=
  { roomDimensions := jsOrDefault (extractFromAnalysis analysisText "dimensions") "Approximately 10\x27 x 12\x27 kitchen space",
    layoutType := jsOrDefault (extractFromAnalysis analysisText "layout") "Standard kitchen layout",
    existingFeatures := extractFeatures analysisText,
    challenges := extractChallenges analysisText,
    opportunities := extractOpportunities analysisText,
    lightingSituation := jsOrDefault (extractFromAnalysis analysisText "lighting") "Natural light from windows",
    architecturalElements := extractArchitectural analysisText,
    recommendedStyles := extractRecommendedStyles analysisText,
    spaceOptimization := extractOptimization analysisText }

/-- The SpaceAnalysis made entirely of the documented fixed defaults: what the
analyze branch produces when no keyword is recognized anywhere in the text. -/
def defaultSpaceAnalysis : SpaceAnalysis :=
  { roomDimensions := "Approximately 10\x27 x 12\x27 kitchen space",
    layoutType := "Standard kitchen layout",
    existingFeatures := ["Natural lighting", "Standard ceiling height", "Existing flooring"],
    challenges := ["Space optimization needed", "Storage improvements", "Lighting updates"],
    opportunities := ["Maximize vertical storage with tall cabinets",
                      "Improve workflow with optimized layout",
                      "Add modern lighting solutions",
                      "Create more counter workspace",
                      "Enhance storage organization"],
    lightingSituation := "Natural light from windows",
    architecturalElements := ["Standard wall construction", "Existing flooring",
                              "Window placement", "Door locations"],
    recommendedStyles := ["Contemporary", "Traditional", "Transitional"],
    spaceOptimization := ["Optimize work triangle efficiency",
                          "Maximize storage capacity",
                          "Improve traffic flow",
                          "Enhance natural lighting"] }

/-- Every substring keyword any extraction function tests for. -/
def recognizedKeywords : List String :=
  ["dimension", "size", "feet", "\x27", "x",
   "layout", "galley", "l-shaped", "u-shaped", "island",
   "light", "window", "bright",
   "ceiling", "floor", "door",
   "small", "limited", "old", "dated", "storage",
   "modern", "contemporary", "traditional", "classic", "transitional", "farmhouse", "rustic"]

/-- A concrete design variation used to instantiate universally quantified
theorems. -/
def sampleVariation : DesignVariation :=
  { name := "Custom Contemporary Design",
    description := "sample description",
    cabinetStyle := "Flat-panel doors with sleek brushed hardware",
    colorPalette := "Crisp whites with warm gray accents and quartz counters",
    keyFeatures := ["Quartz countertops"],
    timeline := "10-12 weeks",
    complexity := "high",
    whyThisWorks := "sample rationale",
    layoutOptimization := ["Improved workflow efficiency"],
    storageFeatures := ["first item", "second item", "third item", "fourth item"] }

/-- A concrete preference set used to instantiate universally quantified
theorems. -/
def samplePreferences : Preferences :=
  { kitchenStyle := "contemporary",
    colorPreference := "light-neutral",
    budgetRange := "60k-80k",
    storageNeeds := "maximum-storage",
    cookingHabits := "daily",
    familySize := "large" }

/-- A concrete synthesis capability that fails (raises) on the first call and
returns a URL on every later call. -/
def sampleSynth : Nat → Option String :=
  fun i => if i = 0 then none else some "https://img.example/render.png"

/-- Opening clause of the prompt: the base sentence naming the style. -/
def basePromptClause (style : String) : String :=
  "A stunning, photorealistic 3D rendering of a " ++ style ++ " kitchen design for Urban Woodspace Calgary. "

/-- Style-specific descriptive clause: one of 7 texts chosen by exact style
match, empty when the style is unrecognized. -/
def styleSpecificClause (style : String) : String :=
  if style = "contemporary" then
    "Clean lines, flat-panel cabinets, minimalist design with sleek hardware and modern appliances. "
  else if style = "traditional" then
    "Classic raised-panel cabinets, elegant details, timeless design with traditional hardware and warm finishes. "
  else if style = "transitional" then
    "Shaker-style cabinets blending traditional and modern elements with versatile hardware. "
  else if style = "modern" then
    "Ultra-modern design with handleless cabinets, cutting-edge features, and minimalist aesthetics. "
  else if style = "farmhouse" then
    "Rustic farmhouse charm with beadboard details, vintage-inspired elements, and cozy warmth. "
  else if style = "scandinavian" then
    "Light wood tones, natural materials, bright and airy Scandinavian design with clean lines. "
  else if style = "industrial" then
    "Industrial aesthetic with metal accents, urban design elements, and modern functionality. "
  else ""

/-- Color-palette clause: interpolates the colorPalette of the variation. -/
def colorPaletteClause (palette : String) : String :=
  "Color scheme: " ++ palette ++ ". "

/-- Cooking-habit clauses: conditional on "daily"/"frequent" and
"entertainer" substring matches of cookingHabits. -/
def cookingHabitClause (cooking : String) : String :=
  (if jsIncludes cooking "daily" || jsIncludes cooking "frequent" then
    "Efficient work triangle layout with multiple prep areas and professional-grade workflow. "
  else "")
  ++ (if jsIncludes cooking "entertainer" then
    "Open layout perfect for entertaining with large island and social cooking areas. "
  else "")

/-- Family-size clause: conditional on a "large" substring of familySize. -/
def familySizeClause (family : String) : String :=
  if jsIncludes family "large" then
    "Spacious design accommodating large family needs with ample storage and workspace. "
  else ""

/-- Technical-specification clause: interpolates the cabinetStyle of the variation. -/
def technicalSpecClause (cabinetStyle : String) : String :=
  cabinetStyle ++ ". Premium quartz countertops, under-cabinet LED lighting, high-end stainless steel appliances. "

/-- Storage clause: interpolates the first 3 storageFeatures joined by ", ". -/
def promptStorageClause (storageFeatures : List String) : String :=
  "Storage features: " ++ String.intercalate ", " (storageFeatures.take 3) ++ ". "

/-- Fixed closing text of the prompt: the Calgary-homes sentence followed by
the quality/style sentence, both constant. -/
def closingClause : String :=
  "Designed for Calgary homes with practical storage for winter gear and seasonal items. "
  ++ "Professional architectural photography style, perfect natural lighting, 4K quality, hyperrealistic rendering. The kitchen should look like a high-end interior design magazine photo with perfect staging, warm lighting, and inviting atmosphere. Show the space as lived-in and welcoming for a Calgary family."

/-- The prompt is exactly the ordered concatenation of its clauses. -/
lemma createImagePrompt_clauses (design : DesignVariation) (preferences : Preferences) (originalImageUrl : String) :
    createImagePrompt design preferences originalImageUrl =
      basePromptClause preferences.kitchenStyle
      ++ styleSpecificClause preferences.kitchenStyle
      ++ colorPaletteClause design.colorPalette
      ++ cookingHabitClause preferences.cookingHabits
      ++ familySizeClause preferences.familySize
      ++ technicalSpecClause design.cabinetStyle
      ++ promptStorageClause design.storageFeatures
      ++ closingClause := by
  simp only [createImagePrompt, basePromptClause, styleSpecificClause, colorPaletteClause,
    cookingHabitClause, familySizeClause, technicalSpecClause, promptStorageClause,
    closingClause, String.append_assoc]

/-- Shape invariant of the generate loop: one output record per variation, in
order (witnessed by the styleName projection), and the two counters sum to the
number of variations processed. -/
lemma runLoop_invariant (preferences : Preferences) (imageUrl : String) (synth : Nat → Option String) :
    ∀ (l : List DesignVariation) (i : Nat),
      (runLoop preferences imageUrl synth i l).designs.map GeneratedDesign.styleName
        = l.map DesignVariation.name
      ∧ (runLoop preferences imageUrl synth i l).imagesGenerated
        + (runLoop preferences imageUrl synth i l).imagesFailed = l.length := by
  intro l
  induction l with
  | nil => intro i; simp [runLoop]
  | cons v rest ih =>
    intro i
    obtain ⟨ih1, ih2⟩ := ih (i + 1)
    cases h : synth i with
    | none =>
      refine ⟨?_, ?_⟩
      · simp [runLoop, h, failedDesign, ih1]
      · simp [runLoop, h]
        omega
    | some url =>
      by_cases hu : url = ""
      · refine ⟨?_, ?_⟩
        · simp [runLoop, h, hu, failedDesign, ih1]
        · simp [runLoop, h, hu]
          omega
      · refine ⟨?_, ?_⟩
        · simp [runLoop, h, hu, successDesign, ih1]
        · simp [runLoop, h, hu]
          omega

/-- C3: for every Preferences value, `createDesignVariations` returns exactly
3 variations whose complexity fields are, in order, "high", "premium",
"standard", and whose timeline fields are, in order, "10-12 weeks",
"12-14 weeks", "8-10 weeks". -/
theorem claim_C3_variations_fixed_tiers (preferences : Preferences) :
    (createDesignVariations preferences).length = 3
    ∧ (createDesignVariations preferences).map DesignVariation.complexity
        = ["high", "premium", "standard"]
    ∧ (createDesignVariations preferences).map DesignVariation.timeline
        = ["10-12 weeks", "12-14 weeks", "8-10 weeks"] :=
  ⟨rfl, rfl, rfl⟩

/-- C9: `getKeyFeatures` depends only on its tier argument; the style, storage
and cooking arguments never influence the result. -/
theorem claim_C9_keyFeatures_tier_only (tier s1 st1 c1 s2 st2 c2 : String) :
    getKeyFeatures s1 st1 c1 tier = getKeyFeatures s2 st2 c2 tier := rfl

/-- C4: unknown style, color and storage keys fall back to the documented
defaults: "Custom cabinet style", "Custom color palette designed for your
space", and the fixed 4-item generic storage list (plus the two enhanced-tier
items when tier is "enhanced"). -/
theorem claim_C4_unknown_key_fallbacks :
    (∀ style tier : String,
      style ∉ (["contemporary", "traditional", "transitional", "modern",
                "farmhouse", "scandinavian", "industrial"] : List String) →
      getCabinetStyle style tier = "Custom cabinet style")
    ∧ (∀ colorPref tier : String,
      colorPref ∉ (["light-neutral", "dark-dramatic", "warm-wood", "two-tone",
                    "bold-colors"] : List String) →
      getColorPalette colorPref tier = "Custom color palette designed for your space")
    ∧ (∀ storage tier : String,
      storage ∉ (["maximum-storage", "organized-storage", "display-storage",
                  "hidden-storage", "pantry-storage"] : List String) →
      getStorageFeatures storage tier =
        (["Custom storage solutions tailored to your needs",
          "Organized cabinet interiors with adjustable shelves",
          "Efficient space utilization for Calgary homes",
          "Quality storage hardware with lifetime warranty"]
         ++ if tier = "enhanced" then
              ["Smart storage technology integration",
               "Premium organization systems with soft-close"]
            else [])) := by
  refine ⟨?_, ?_, ?_⟩
  · intro style tier h
    simp only [List.mem_cons, List.not_mem_nil, or_false, not_or] at h
    obtain ⟨h1, h2, h3, h4, h5, h6, h7⟩ := h
    simp [getCabinetStyle, h1, h2, h3, h4, h5, h6, h7]
  · intro colorPref tier h
    simp only [List.mem_cons, List.not_mem_nil, or_false, not_or] at h
    obtain ⟨h1, h2, h3, h4, h5⟩ := h
    simp [getColorPalette, h1, h2, h3, h4, h5]
  · intro storage tier h
    simp only [List.mem_cons, List.not_mem_nil, or_false, not_or] at h
    obtain ⟨h1, h2, h3, h4, h5⟩ := h
    by_cases ht : tier = "enhanced"
    · simp [getStorageFeatures, h1, h2, h3, h4, h5, ht]
    · simp [getStorageFeatures, h1, h2, h3, h4, h5, ht]

/-- Witness for C4 at concrete unknown keys. -/
theorem claim_C4_unknown_key_fallbacks_witness :
    getCabinetStyle "artdeco" "primary" = "Custom cabinet style"
    ∧ getColorPalette "neon" "enhanced" = "Custom color palette designed for your space"
    ∧ getStorageFeatures "open-storage" "enhanced" =
        ["Custom storage solutions tailored to your needs",
         "Organized cabinet interiors with adjustable shelves",
         "Efficient space utilization for Calgary homes",
         "Quality storage hardware with lifetime warranty",
         "Smart storage technology integration",
         "Premium organization systems with soft-close"] := by
  refine ⟨claim_C4_unknown_key_fallbacks.1 "artdeco" "primary" (by decide),
          claim_C4_unknown_key_fallbacks.2.1 "neon" "enhanced" (by decide), ?_⟩
  have h := claim_C4_unknown_key_fallbacks.2.2 "open-storage" "enhanced" (by decide)
  simpa using h

/-- C5: `calculateCost "60k-80k" "premium"` is exactly
"$75,000 - $100,000 CAD"; any unknown bracket with complexity "high" yields
exactly "$35,000 - $50,000 CAD"; and in general the output is the min and max of the bracket each scaled by the complexity multiplier and rounded, formatted
with thousands separators as a CAD range. -/
theorem claim_C5_calculateCost :
    calculateCost "60k-80k" "premium" = "$75,000 - $100,000 CAD"
    ∧ (∀ budgetRange : String,
      budgetRange ∉ (["25k-40k", "40k-60k", "60k-80k", "80k-100k",
                      "100k-plus"] : List String) →
      calculateCost budgetRange "high" = "$35,000 - $50,000 CAD")
    ∧ (∀ budgetRange complexity : String,
      calculateCost budgetRange complexity =
        "$" ++ withCommas (roundMult (budgetBracket budgetRange).1 (complexityMultPct complexity))
        ++ " - $" ++ withCommas (roundMult (budgetBracket budgetRange).2 (complexityMultPct complexity))
        ++ " CAD") := by
  refine ⟨by decide, ?_, fun budgetRange complexity => rfl⟩
  intro budgetRange h
  simp only [List.mem_cons, List.not_mem_nil, or_false, not_or] at h
  obtain ⟨h1, h2, h3, h4, h5⟩ := h
  have hb : budgetBracket budgetRange = (35000, 50000) := by
    simp [budgetBracket, h1, h2, h3, h4, h5]
  simp [calculateCost, hb]
  decide

/-- Witness for C5 at a concrete unknown bracket. -/
theorem claim_C5_calculateCost_witness :
    calculateCost "15k-20k" "high" = "$35,000 - $50,000 CAD" :=
  claim_C5_calculateCost.2.1 "15k-20k" (by decide)

/-- A synthesis call counts as a success exactly when it returns a non-empty
URL. -/
lemma synthSucceeds_iff (r : Option String) :
    synthSucceeds r = true ↔ ∃ u, r = some u ∧ u ≠ "" := by
  cases r with
  | none => simp [synthSucceeds]
  | some u => simp [synthSucceeds]

/-- A synthesis call counts as a failure exactly when it raises or returns a
missing or empty URL. -/
lemma synthSucceeds_false_iff (r : Option String) :
    synthSucceeds r = false ↔ r = none ∨ r = some "" := by
  cases r with
  | none => simp [synthSucceeds]
  | some u => simp [synthSucceeds]

/-- C2: for every Preferences value and every pattern of per-variation
synthesis outcomes, the orchestrator produces exactly one GeneratedDesign per
DesignVariation in the same order (the styleName projection matches the
variation names positionally), and imagesGenerated + imagesFailed equals the
length of the designs array. -/
theorem claim_C2_one_design_per_variation (preferences : Preferences) (imageUrl : String)
    (synth : Nat → Option String) :
    (runGenerate preferences imageUrl synth).designs.map GeneratedDesign.styleName
      = (createDesignVariations preferences).map DesignVariation.name
    ∧ (runGenerate preferences imageUrl synth).designs.length
      = (createDesignVariations preferences).length
    ∧ (runGenerate preferences imageUrl synth).imagesGenerated
      + (runGenerate preferences imageUrl synth).imagesFailed
      = (runGenerate preferences imageUrl synth).designs.length := by
  obtain ⟨h1, h2⟩ := runLoop_invariant preferences imageUrl synth (createDesignVariations preferences) 0
  have hlen : (runGenerate preferences imageUrl synth).designs.length
      = (createDesignVariations preferences).length := by
    have := congrArg List.length h1
    simpa [runGenerate] using this
  exact ⟨h1, hlen, by rw [hlen]; exact h2⟩

/-- C7: the prompt is exactly the ordered concatenation of the base sentence,
the style-specific clause (one of 7 by exact match, empty if unrecognized),
the color-palette clause, the cooking-habit clauses, the family-size clause,
the technical-specification clause, the storage clause, and the fixed closing
text (the Calgary-homes sentence and the quality/style sentence). -/
theorem claim_C7_prompt_clause_order (design : DesignVariation) (preferences : Preferences)
    (originalImageUrl : String) :
    createImagePrompt design preferences originalImageUrl =
      basePromptClause preferences.kitchenStyle
      ++ styleSpecificClause preferences.kitchenStyle
      ++ colorPaletteClause design.colorPalette
      ++ cookingHabitClause preferences.cookingHabits
      ++ familySizeClause preferences.familySize
      ++ technicalSpecClause design.cabinetStyle
      ++ promptStorageClause design.storageFeatures
      ++ closingClause
    ∧ (∀ s : String,
      s ∉ (["contemporary", "traditional", "transitional", "modern",
            "farmhouse", "scandinavian", "industrial"] : List String) →
      styleSpecificClause s = "") := by
  refine ⟨createImagePrompt_clauses design preferences originalImageUrl, ?_⟩
  intro s h
  simp only [List.mem_cons, List.not_mem_nil, or_false, not_or] at h
  obtain ⟨h1, h2, h3, h4, h5, h6, h7⟩ := h
  simp [styleSpecificClause, h1, h2, h3, h4, h5, h6, h7]

/-- Witness for C7 at concrete inputs, including an unrecognized style. -/
theorem claim_C7_prompt_clause_order_witness :
    createImagePrompt sampleVariation samplePreferences "data:image/jpeg;base64,AAAA" =
      basePromptClause samplePreferences.kitchenStyle
      ++ styleSpecificClause samplePreferences.kitchenStyle
      ++ colorPaletteClause sampleVariation.colorPalette
      ++ cookingHabitClause samplePreferences.cookingHabits
      ++ familySizeClause samplePreferences.familySize
      ++ technicalSpecClause sampleVariation.cabinetStyle
      ++ promptStorageClause sampleVariation.storageFeatures
      ++ closingClause
    ∧ styleSpecificClause "brutalist" = "" :=
  ⟨(claim_C7_prompt_clause_order sampleVariation samplePreferences "data:image/jpeg;base64,AAAA").1,
   (claim_C7_prompt_clause_order sampleVariation samplePreferences "data:image/jpeg;base64,AAAA").2
     "brutalist" (by decide)⟩

/-- C6: when storageFeatures has length at least 3, the prompt contains the
storage clause interpolating exactly the first 3 items joined by ", ", and the
prompt is unchanged by replacing storageFeatures with any list that agrees on
its first 3 items, so items beyond the third never reach the prompt. -/
theorem claim_C6_storage_clause_first_three (design : DesignVariation) (preferences : Preferences)
    (originalImageUrl : String) (h3 : 3 ≤ design.storageFeatures.length) :
    (∃ pre post, createImagePrompt design preferences originalImageUrl =
      pre ++ ("Storage features: "
        ++ String.intercalate ", " (design.storageFeatures.take 3) ++ ". ") ++ post)
    ∧ (∀ l : List String, l.take 3 = design.storageFeatures.take 3 →
      createImagePrompt { design with storageFeatures := l } preferences originalImageUrl
        = createImagePrompt design preferences originalImageUrl) := by
  constructor
  · exact ⟨basePromptClause preferences.kitchenStyle
        ++ styleSpecificClause preferences.kitchenStyle
        ++ colorPaletteClause design.colorPalette
        ++ cookingHabitClause preferences.cookingHabits
        ++ familySizeClause preferences.familySize
        ++ technicalSpecClause design.cabinetStyle,
      closingClause,
      createImagePrompt_clauses design preferences originalImageUrl⟩
  · intro l hl
    rw [createImagePrompt_clauses, createImagePrompt_clauses]
    simp [promptStorageClause, hl]

/-- Witness for C6 at a concrete 4-item storage list. -/
theorem claim_C6_storage_clause_first_three_witness :
    3 ≤ sampleVariation.storageFeatures.length
    ∧ ((∃ pre post, createImagePrompt sampleVariation samplePreferences "" =
        pre ++ ("Storage features: "
          ++ String.intercalate ", " (sampleVariation.storageFeatures.take 3) ++ ". ") ++ post)
      ∧ (∀ l : List String, l.take 3 = sampleVariation.storageFeatures.take 3 →
        createImagePrompt { sampleVariation with storageFeatures := l } samplePreferences ""
          = createImagePrompt sampleVariation samplePreferences "")) :=
  ⟨by decide, claim_C6_storage_clause_first_three sampleVariation samplePreferences "" (by decide)⟩

/-- C10: the success and failure records for the same variation agree on all
ten non-image fields (styleName carries the name of the variation; estimatedCost is
computed by the same call on both paths); the success record additionally
carries the generated URL, the prompt, and imageStatus "success", while the
failure record carries no image fields and imageStatus "failed"; and every
element of the designs array exposes the name of its variation as styleName. -/
theorem claim_C10_success_failure_frame (preferences : Preferences) (v : DesignVariation)
    (imageUrl url prompt : String) (synth : Nat → Option String) :
    (runGenerate preferences imageUrl synth).designs.map GeneratedDesign.styleName
      = (createDesignVariations preferences).map DesignVariation.name
    ∧ (successDesign preferences v url prompt).styleName = v.name
    ∧ (failedDesign preferences v).styleName = v.name
    ∧ (successDesign preferences v url prompt).description = (failedDesign preferences v).description
    ∧ (successDesign preferences v url prompt).cabinetStyle = (failedDesign preferences v).cabinetStyle
    ∧ (successDesign preferences v url prompt).colorPalette = (failedDesign preferences v).colorPalette
    ∧ (successDesign preferences v url prompt).keyFeatures = (failedDesign preferences v).keyFeatures
    ∧ (successDesign preferences v url prompt).estimatedCost = (failedDesign preferences v).estimatedCost
    ∧ (failedDesign preferences v).estimatedCost = calculateCost preferences.budgetRange v.complexity
    ∧ (successDesign preferences v url prompt).timeline = (failedDesign preferences v).timeline
    ∧ (successDesign preferences v url prompt).whyThisWorks = (failedDesign preferences v).whyThisWorks
    ∧ (successDesign preferences v url prompt).layoutOptimization = (failedDesign preferences v).layoutOptimization
    ∧ (successDesign preferences v url prompt).storageFeatures = (failedDesign preferences v).storageFeatures
    ∧ (successDesign preferences v url prompt).generatedImage = some url
    ∧ (successDesign preferences v url prompt).imagePrompt = some prompt
    ∧ (successDesign preferences v url prompt).imageStatus = "success"
    ∧ (failedDesign preferences v).generatedImage = none
    ∧ (failedDesign preferences v).imagePrompt = none
    ∧ (failedDesign preferences v).imageStatus = "failed" := by
  refine ⟨(runLoop_invariant preferences imageUrl synth (createDesignVariations preferences) 0).1,
    ?_, ?_, ?_, ?_, ?_, ?_, ?_, ?_, ?_, ?_, ?_, ?_, ?_, ?_, ?_, ?_, ?_, ?_⟩
  all_goals rfl

/-- C1: when the synthesis capability fails for exactly one of the three
variations and succeeds for the other two, the designs array has length 3,
exactly one entry has imageStatus "failed", that entry carries no
generatedImage and no imagePrompt, and the stats are imagesGenerated = 2,
imagesFailed = 1. The orchestrator `runGenerate` is a total function, so no
exception escapes the loop: the failure is absorbed into the failed record. -/
theorem claim_C1_single_failure_isolated (preferences : Preferences) (imageUrl : String)
    (synth : Nat → Option String) (k : Nat) (hk : k < 3)
    (hfail : synthSucceeds (synth k) = false)
    (hok : ∀ j : Nat, j < 3 → j ≠ k → synthSucceeds (synth j) = true) :
    (runGenerate preferences imageUrl synth).designs.length = 3
    ∧ (runGenerate preferences imageUrl synth).designs.countP
        (fun d => d.imageStatus == "failed") = 1
    ∧ (runGenerate preferences imageUrl synth).designs.countP
        (fun d => d.imageStatus == "failed" && d.generatedImage == none
          && d.imagePrompt == none) = 1
    ∧ (runGenerate preferences imageUrl synth).imagesGenerated = 2
    ∧ (runGenerate preferences imageUrl synth).imagesFailed = 1 := by
  interval_cases k
  · obtain ⟨u1, e1, hu1⟩ := (synthSucceeds_iff _).1 (hok 1 (by omega) (by omega))
    obtain ⟨u2, e2, hu2⟩ := (synthSucceeds_iff _).1 (hok 2 (by omega) (by omega))
    rcases (synthSucceeds_false_iff _).1 hfail with e0 | e0 <;>
      simp [runGenerate, createDesignVariations, runLoop, e0, e1, e2, hu1, hu2,
        successDesign, failedDesign, List.countP_cons]
  · obtain ⟨u0, e0, hu0⟩ := (synthSucceeds_iff _).1 (hok 0 (by omega) (by omega))
    obtain ⟨u2, e2, hu2⟩ := (synthSucceeds_iff _).1 (hok 2 (by omega) (by omega))
    rcases (synthSucceeds_false_iff _).1 hfail with e1 | e1 <;>
      simp [runGenerate, createDesignVariations, runLoop, e0, e1, e2, hu0, hu2,
        successDesign, failedDesign, List.countP_cons]
  · obtain ⟨u0, e0, hu0⟩ := (synthSucceeds_iff _).1 (hok 0 (by omega) (by omega))
    obtain ⟨u1, e1, hu1⟩ := (synthSucceeds_iff _).1 (hok 1 (by omega) (by omega))
    rcases (synthSucceeds_false_iff _).1 hfail with e2 | e2 <;>
      simp [runGenerate, createDesignVariations, runLoop, e0, e1, e2, hu0, hu1,
        successDesign, failedDesign, List.countP_cons]

/-- Witness for C1: the first synthesis call raises, the other two return a
URL. -/
theorem claim_C1_single_failure_isolated_witness :
    synthSucceeds (sampleSynth 0) = false
    ∧ ((runGenerate samplePreferences "" sampleSynth).designs.length = 3
      ∧ (runGenerate samplePreferences "" sampleSynth).designs.countP
          (fun d => d.imageStatus == "failed") = 1
      ∧ (runGenerate samplePreferences "" sampleSynth).designs.countP
          (fun d => d.imageStatus == "failed" && d.generatedImage == none
            && d.imagePrompt == none) = 1
      ∧ (runGenerate samplePreferences "" sampleSynth).imagesGenerated = 2
      ∧ (runGenerate samplePreferences "" sampleSynth).imagesFailed = 1) :=
  ⟨by decide,
   claim_C1_single_failure_isolated samplePreferences "" sampleSynth 0 (by decide)
     (by decide) (by intro j hj hne; interval_cases j <;> simp_all <;> decide)⟩

/-- C8: on text containing none of the recognized keywords (in the lowercased
text as a whole or in any of its lines), every field of the assembled
SpaceAnalysis equals its documented fixed non-empty default, and the
extraction is deterministic (it is a pure function of the text). -/
theorem claim_C8_no_keyword_defaults (text : String)
    (hall : ∀ k ∈ recognizedKeywords, jsIncludes (jsToLower text) k = false)
    (hline : ∀ line ∈ jsSplitLines (jsToLower text), ∀ k ∈ recognizedKeywords,
      jsIncludes line k = false) :
    buildSpaceAnalysis text = defaultSpaceAnalysis
    ∧ (buildSpaceAnalysis text).roomDimensions ≠ ""
    ∧ (buildSpaceAnalysis text).layoutType ≠ ""
    ∧ (buildSpaceAnalysis text).existingFeatures ≠ []
    ∧ (buildSpaceAnalysis text).challenges ≠ []
    ∧ (buildSpaceAnalysis text).opportunities ≠ []
    ∧ (buildSpaceAnalysis text).lightingSituation ≠ ""
    ∧ (buildSpaceAnalysis text).architecturalElements ≠ []
    ∧ (buildSpaceAnalysis text).recommendedStyles ≠ []
    ∧ (buildSpaceAnalysis text).spaceOptimization ≠ []
    ∧ buildSpaceAnalysis text = buildSpaceAnalysis text := by
  have hdim : extractFromAnalysis text "dimensions" = none := by
    have hnone : (jsSplitLines (jsToLower text)).find? (fun line =>
        jsIncludes line "dimension" || jsIncludes line "size" || jsIncludes line "feet" ||
        jsIncludes line "\x27" || jsIncludes line "x") = none := by
      rw [List.find?_eq_none]
      intro line hl
      simp [hline line hl "dimension" (by decide), hline line hl "size" (by decide),
            hline line hl "feet" (by decide), hline line hl "\x27" (by decide),
            hline line hl "x" (by decide)]
    simp [extractFromAnalysis, hnone]
  have hlay : extractFromAnalysis text "layout" = none := by
    have hnone : (jsSplitLines (jsToLower text)).find? (fun line =>
        jsIncludes line "layout" || jsIncludes line "galley" || jsIncludes line "l-shaped" ||
        jsIncludes line "u-shaped" || jsIncludes line "island") = none := by
      rw [List.find?_eq_none]
      intro line hl
      simp [hline line hl "layout" (by decide), hline line hl "galley" (by decide),
            hline line hl "l-shaped" (by decide), hline line hl "u-shaped" (by decide),
            hline line hl "island" (by decide)]
    simp [extractFromAnalysis, hnone]
  have hlight : extractFromAnalysis text "lighting" = none := by
    have hnone : (jsSplitLines (jsToLower text)).find? (fun line =>
        jsIncludes line "light" || jsIncludes line "window" || jsIncludes line "bright") = none := by
      rw [List.find?_eq_none]
      intro line hl
      simp [hline line hl "light" (by decide), hline line hl "window" (by decide),
            hline line hl "bright" (by decide)]
    simp [extractFromAnalysis, hnone]
  have hmain : buildSpaceAnalysis text = defaultSpaceAnalysis := by
    simp [buildSpaceAnalysis, defaultSpaceAnalysis, jsOrDefault, hdim, hlay, hlight,
      extractFeatures, extractChallenges, extractOpportunities, extractArchitectural,
      extractRecommendedStyles, extractOptimization,
      hall "window" (by decide), hall "ceiling" (by decide), hall "floor" (by decide),
      hall "door" (by decide), hall "small" (by decide), hall "limited" (by decide),
      hall "old" (by decide), hall "dated" (by decide), hall "storage" (by decide),
      hall "light" (by decide), hall "modern" (by decide), hall "contemporary" (by decide),
      hall "traditional" (by decide), hall "classic" (by decide),
      hall "transitional" (by decide), hall "farmhouse" (by decide),
      hall "rustic" (by decide)]
  rw [hmain]
  refine ⟨rfl, ?_, ?_, ?_, ?_, ?_, ?_, ?_, ?_, ?_, rfl⟩
  all_goals decide

/-- Witness for C8: the empty text contains no keyword at all. -/
theorem claim_C8_no_keyword_defaults_witness :
    (∀ k ∈ recognizedKeywords, jsIncludes (jsToLower "") k = false)
    ∧ (buildSpaceAnalysis "" = defaultSpaceAnalysis
      ∧ (buildSpaceAnalysis "").roomDimensions ≠ ""
      ∧ (buildSpaceAnalysis "").layoutType ≠ ""
      ∧ (buildSpaceAnalysis "").existingFeatures ≠ []
      ∧ (buildSpaceAnalysis "").challenges ≠ []
      ∧ (buildSpaceAnalysis "").opportunities ≠ []
      ∧ (buildSpaceAnalysis "").lightingSituation ≠ ""
      ∧ (buildSpaceAnalysis "").architecturalElements ≠ []
      ∧ (buildSpaceAnalysis "").recommendedStyles ≠ []
      ∧ (buildSpaceAnalysis "").spaceOptimization ≠ []
      ∧ buildSpaceAnalysis "" = buildSpaceAnalysis "") :=
  ⟨by decide, claim_C8_no_keyword_defaults "" (by decide) (by decide)⟩

end UrbanWoodspace
